import Mathlib

/-
Verification of the CAN core of the rpi-hp-board kiosk controller.

The definitions below are a shallow embedding of the Python sources:
  - can_system/can_module.py   (filter matching)
  - can_system/can_manager.py  (listener / responder workers, bounded send retry)
  - can_system/command_processor.py (command queue marshalling)
  - application.py             (restart / shutdown lifecycle orchestration)
Stateful loops are embedded as explicit state-passing step functions; the
wall clock and the transport outcome are supplied as oracle parameters.
-/

/- ===== Hex parsing, as performed by Python int(x, 16) on filter strings ===== -/

/-- Value of one hexadecimal digit character, or `none` when the character is
not a hex digit (the failure case of Python `int(x, 16)`). -/
def hexDigitVal (c : Char) : Option Nat :=
  if c ≥ '0' ∧ c ≤ '9' then some (Char.toNat c - Char.toNat '0')
  else if c ≥ 'a' ∧ c ≤ 'f' then some (Char.toNat c - Char.toNat 'a' + 10)
  else if c ≥ 'A' ∧ c ≤ 'F' then some (Char.toNat c - Char.toNat 'A' + 10)
  else none

/-- Accumulating base-16 evaluation of a digit list; `none` as soon as one
character is not a hex digit. -/
def hexDigitsVal : List Char → Nat → Option Nat
  | [], acc => some acc
  | c :: rest, acc =>
    match hexDigitVal c with
    | some d => hexDigitsVal rest (16 * acc + d)
    | none => none

/-- Drop a leading "0x" / "0X" marker, as `int(x, 16)` accepts. -/
def dropHexTag : List Char → List Char
  | '0' :: 'x' :: rest => rest
  | '0' :: 'X' :: rest => rest
  | other => other

/-- Embedding of Python `int(s, 16)` on the strings appearing in filter
configurations: an optional "0x"/"0X" marker followed by a nonempty run of
hex digits; every malformed string maps to `none` (Python: `ValueError`). -/
def parseHex (s : String) : Option Nat :=
  let cs := dropHexTag s.toList
  if cs.isEmpty then none else hexDigitsVal cs 0

/-- Embedding of the list comprehension
`[int(x, 16) for x in filter["id_range"]]`: all elements are parsed, a single
failure aborts the whole conversion (Python: `ValueError` raised). -/
def parseHexList : List String → Option (List Nat)
  | [] => some []
  | s :: rest =>
    match parseHex s, parseHexList rest with
    | some v, some vs => some (v :: vs)
    | _, _ => none

/- ===== Frames and filter rules (can_module.py) ===== -/

/-- A received CAN frame: arbitration id plus payload bytes. -/
structure CanFrame where
  arbitration_id : Nat
  data : List Nat
deriving Repr, DecidableEq

/-- One software filter rule, exactly as it sits in the configuration:
hex strings for the id range, and payload conditions that are either a hex
string, the wildcard string "*", or absent (Python `None`, modelled `none`). -/
structure FilterRule where
  name : String
  id_range : List String
  payload_conditions : List (Option String)
deriving Repr, DecidableEq

/-- Embedding of the `for index, expected_value in enumerate(...)` loop of
`CANModule._is_message_matching_filter`: wildcard or `None` entries are
skipped; a non-wildcard entry must index into the payload (an out-of-range
index is Python `IndexError`, caught and turned into `False`) and parse as
hex (failure is `ValueError`, caught and turned into `False`), and the byte
must be equal. -/
def checkPayloadConditions (data : List Nat) : Nat → List (Option String) → Bool
  | _, [] => true
  | idx, cond :: rest =>
    match cond with
    | none => checkPayloadConditions data (idx + 1) rest
    | some s =>
      if s = "*" then checkPayloadConditions data (idx + 1) rest
      else
        match data.get? idx, parseHex s with
        | some b, some v =>
          if b = v then checkPayloadConditions data (idx + 1) rest else false
        | _, _ => false

/-- Embedding of `CANModule._is_message_matching_filter`: parse the whole
`id_range`, check the inclusive id bounds, then check payload conditions.
Every raised `ValueError` / `IndexError` in the source is caught there and
turned into `False`, which is reflected here by returning `false` on the
corresponding parse / lookup failures. -/
def isMessageMatchingFilter (message : CanFrame) (f : FilterRule) : Bool :=
  match parseHexList f.id_range with
  | none => false
  | some idRange =>
    match idRange.get? 0, idRange.get? 1 with
    | some lo, some hi =>
      if lo ≤ message.arbitration_id ∧ message.arbitration_id ≤ hi then
        checkPayloadConditions message.data 0 f.payload_conditions
      else false
    | _, _ => false

/-- Embedding of `CANModule._match_filter_to_handler`: first matching rule in
list order wins, `None` when no rule matches. -/
def matchFilterToHandler (message : CanFrame) : List FilterRule → Option String
  | [] => none
  | f :: rest =>
    if isMessageMatchingFilter message f then some f.name
    else matchFilterToHandler message rest

/- ===== The matcher as the specification words it (for claim C1) ===== -/

/-- Specification-side check of one payload condition at its position: a
wildcard or absent entry accepts any byte; a non-wildcard entry requires the
payload byte at that index to exist (shorter payloads reject) and equal the
parsed hex value. -/
def specCondOk (data : List Nat) : Nat × Option String → Bool
  | (_, none) => true
  | (i, some s) =>
    if s = "*" then true
    else
      match data.get? i, parseHex s with
      | some b, some v => b == v
      | _, _ => false

/-- Specification-side satisfaction of one rule, following the spec text:
the rule's two inclusive hex bounds contain the frame id, and every
non-wildcard payload-condition byte equals the corresponding payload byte. -/
def specRuleSatisfied (message : CanFrame) (f : FilterRule) : Bool :=
  match parseHexList f.id_range with
  | some [lo, hi] =>
    decide (lo ≤ message.arbitration_id) && decide (message.arbitration_id ≤ hi) &&
      f.payload_conditions.enum.all (specCondOk message.data)
  | _ => false

/- ===== C1 / C10: correctness of the matcher ===== -/

theorem checkPayloadConditions_eq_all (data : List Nat) (conds : List (Option String)) :
    ∀ idx, checkPayloadConditions data idx conds =
      (conds.enumFrom idx).all (specCondOk data) := by
  induction conds with
  | nil => intro idx; rfl
  | cons c rest ih =>
    intro idx
    cases c with
    | none =>
      simp only [checkPayloadConditions, List.enumFrom, List.all_cons, specCondOk, ih,
        Bool.true_and]
    | some s =>
      by_cases hs : s = "*"
      · simp only [checkPayloadConditions, List.enumFrom, List.all_cons, specCondOk, hs,
          if_true, ih, Bool.true_and]
      · simp only [checkPayloadConditions, List.enumFrom, List.all_cons, specCondOk, hs,
          if_false, ih]
        cases hd : data.get? idx with
        | none => simp
        | some b =>
          cases hp : parseHex s with
          | none => simp
          | some v =>
            by_cases hbv : b = v
            · simp [hbv]
            · simp [hbv]

theorem isMessageMatchingFilter_eq_spec (message : CanFrame) (f : FilterRule)
    (h2 : f.id_range.length = 2) :
    isMessageMatchingFilter message f = specRuleSatisfied message f := by
  obtain ⟨a, b, hab⟩ := List.length_eq_two.mp h2
  unfold isMessageMatchingFilter specRuleSatisfied
  rw [hab]
  cases hpa : parseHex a with
  | none => simp [parseHexList, hpa]
  | some va =>
    cases hpb : parseHex b with
    | none => simp [parseHexList, hpa, hpb]
    | some vb =>
      simp only [parseHexList, hpa, hpb, List.get?]
      by_cases hlo : va ≤ message.arbitration_id
      · by_cases hhi : message.arbitration_id ≤ vb
        · simp [hlo, hhi, checkPayloadConditions_eq_all, List.enum]
        · simp [hlo, hhi]
      · simp [hlo]

/-- C1: for every frame and every ordered rule list whose rules carry the
two inclusive id bounds of the data model, `_match_filter_to_handler`
returns the name of the first rule (in list order) satisfied per the
specification — id inside the inclusive range, every non-wildcard
payload-condition byte equal to the corresponding payload byte, a payload
shorter than the rule expects rejecting the rule without raising — and
`none` when no rule qualifies. -/
theorem matchFilterToHandler_eq_spec (message : CanFrame) (rules : List FilterRule)
    (hwf : ∀ f ∈ rules, f.id_range.length = 2) :
    matchFilterToHandler message rules =
      (rules.find? (fun f => specRuleSatisfied message f)).map FilterRule.name := by
  induction rules with
  | nil => rfl
  | cons f rest ih =>
    have hf : f.id_range.length = 2 := hwf f (by simp)
    have hrest : ∀ g ∈ rest, g.id_range.length = 2 := fun g hg => hwf g (by simp [hg])
    rw [matchFilterToHandler, isMessageMatchingFilter_eq_spec message f hf]
    cases hsp : specRuleSatisfied message f with
    | true => simp [List.find?_cons_of_pos, hsp]
    | false => simp [List.find?_cons_of_neg, hsp, ih hrest]

/-- The "timer" rule of the specification scenario. -/
def timerRule : FilterRule :=
  ⟨"timer", ["0x0DA", "0x0DA"],
    [some "0x02", some "0x01", some "*", some "*", some "*", some "*", some "*", some "*"]⟩

/-- The frame of the specification scenario: id 0x0DA, payload
02 01 00 1E 00 00 00 00. -/
def timerFrame : CanFrame := ⟨218, [2, 1, 0, 30, 0, 0, 0, 0]⟩

theorem matchFilterToHandler_eq_spec_witness :
    matchFilterToHandler timerFrame [timerRule] =
      (([timerRule].find? (fun f => specRuleSatisfied timerFrame f)).map FilterRule.name) ∧
    matchFilterToHandler timerFrame [timerRule] = some "timer" :=
  ⟨matchFilterToHandler_eq_spec timerFrame [timerRule] (by decide), by decide⟩

theorem parseHexList_eq_none_of_mem {l : List String} {s : String}
    (hs : s ∈ l) (hp : parseHex s = none) : parseHexList l = none := by
  induction l with
  | nil => cases hs
  | cons a rest ih =>
    rcases List.mem_cons.mp hs with h | h
    · rw [← h]; simp [parseHexList, hp]
    · cases parseHex a <;> simp [parseHexList, ih h]

theorem checkPayloadConditions_eq_false_of_malformed (data : List Nat)
    {conds : List (Option String)} {s : String}
    (hmem : some s ∈ conds) (hw : s ≠ "*") (hp : parseHex s = none) :
    ∀ idx, checkPayloadConditions data idx conds = false := by
  induction conds with
  | nil => cases hmem
  | cons c rest ih =>
    intro idx
    rcases List.mem_cons.mp hmem with h | h
    · rw [← h]
      simp only [checkPayloadConditions, hw, if_false]
      cases data.get? idx <;> simp [hp]
    · cases c with
      | none => simp [checkPayloadConditions, ih h]
      | some t =>
        by_cases ht : t = "*"
        · simp [checkPayloadConditions, ht, ih h]
        · simp only [checkPayloadConditions, ht, if_false]
          cases data.get? idx with
          | none => rfl
          | some b =>
            cases parseHex t with
            | none => rfl
            | some v =>
              by_cases hbv : b = v
              · simp [hbv, ih h]
              · simp [hbv]

/-- C10: a rule whose `id_range` contains a malformed hex string, or one of
whose non-wildcard `payload_conditions` entries is a malformed hex string
(Python: `ValueError` inside `_is_message_matching_filter`), is treated as
non-matching for every frame instead of raising. -/
theorem malformed_filter_rule_rejected (message : CanFrame) (f : FilterRule)
    (h : (∃ s ∈ f.id_range, parseHex s = none) ∨
         ∃ s, some s ∈ f.payload_conditions ∧ s ≠ "*" ∧ parseHex s = none) :
    isMessageMatchingFilter message f = false := by
  unfold isMessageMatchingFilter
  rcases h with ⟨s, hs, hp⟩ | ⟨s, hmem, hw, hp⟩
  · rw [parseHexList_eq_none_of_mem hs hp]
  · cases hl : parseHexList f.id_range with
    | none => rfl
    | some idRange =>
      cases idRange with
      | nil => rfl
      | cons lo rest =>
        cases rest with
        | nil => rfl
        | cons hi rest2 =>
          by_cases hrange : lo ≤ message.arbitration_id ∧ message.arbitration_id ≤ hi
          · simp [List.get?, hrange,
              checkPayloadConditions_eq_false_of_malformed message.data hmem hw hp]
          · simp [List.get?, hrange]

/-- A rule with a malformed hex bound, used to instantiate C10. -/
def badRule : FilterRule := ⟨"bad", ["zz", "0x10"], [some "0x01"]⟩

theorem malformed_filter_rule_rejected_witness :
    isMessageMatchingFilter timerFrame badRule = false :=
  malformed_filter_rule_rejected timerFrame badRule (Or.inl ⟨"zz", by decide, by decide⟩)

/- ===== Bounded send retry (_send_can_message_with_retry, can_manager.py) ===== -/

/-- Python logging levels used by the embedded components. -/
inductive LogLevel where
  | debug
  | info
  | warning
  | error
  | critical
deriving Repr, DecidableEq

/-- Log entries emitted for one failed send attempt inside the retry loop:
the first failure is logged at warning level, the failure of the last
attempt (`attempt == max_retries - 1`) at error level, and any other
failure is not logged at all. Entries carry the attempt index they refer
to; the post-loop consolidated critical entry carries `none`. -/
def sendFailureLogs (attempt maxRetries : Nat) : List (Option Nat × LogLevel) :=
  if attempt = 0 then [(some 0, LogLevel.warning)]
  else if attempt = maxRetries - 1 then [(some attempt, LogLevel.error)]
  else []

/-- Embedding of the `while attempt < max_retries` loop of
`CANManager._send_can_message_with_retry`, structurally recursing on the
number of remaining attempts. `send a = true` models a successful transport
send on attempt `a`; `send a = false` models `can.CanError` raised there and
caught by the loop. Returns the number of send calls made and the log
entries emitted. -/
def sendRetryGo (send : Nat → Bool) (maxRetries : Nat) :
    Nat → Nat → Nat × List (Option Nat × LogLevel)
  | 0, _ => (0, [(none, LogLevel.critical)])
  | remaining + 1, attempt =>
    if send attempt then
      (1, [(some attempt, if 0 < attempt then LogLevel.info else LogLevel.debug)])
    else
      let rest := sendRetryGo send maxRetries remaining (attempt + 1)
      (1 + rest.1, sendFailureLogs attempt maxRetries ++ rest.2)

/-- Embedding of `CANManager._send_can_message_with_retry` (default
`max_retries = 3`, `retry_delay = 1.0`): result is (send attempts made,
log entries emitted). All `can.CanError` raised by the transport are caught
inside the loop, so the embedded function is total over the send oracle:
no error reaches the caller. -/
def sendCanMessageWithRetry (send : Nat → Bool) (maxRetries : Nat) :
    Nat × List (Option Nat × LogLevel) :=
  sendRetryGo send maxRetries maxRetries 0

/-- C2 counterexample: with `max_attempts = 3` and a persistently failing
transport, the attempts fail at indices 0, 1 and 2; the claim requires the
intermediate failure (attempt 1, neither the first failure nor the
consolidated final one) to be logged at error level, but the source logs
only attempt 0 (warning) and attempt 2 (error) plus one consolidated
critical entry: no log entry at all refers to attempt 1. -/
theorem sendWithRetry_intermediate_failure_unlogged :
    (sendCanMessageWithRetry (fun _ => false) 3).2 =
      [(some 0, LogLevel.warning), (some 2, LogLevel.error), (none, LogLevel.critical)] ∧
    ¬ ((some 1, LogLevel.error) ∈ (sendCanMessageWithRetry (fun _ => false) 3).2) := by
  constructor
  · rfl
  · decide

/-- C2 amended: `send_with_retry` with `max_attempts = 3` makes at most 3
transport send attempts and never propagates a raised transport error (all
`CanError` are caught, so the embedding is total); when every attempt fails
it logs the first failure at warning level, the final attempt's failure at
error level — intermediate failures are not individually logged — and
exactly one consolidated failure at critical level after exhaustion. -/
theorem sendWithRetry_bounded_and_logs (send : Nat → Bool) :
    (sendCanMessageWithRetry send 3).1 ≤ 3 ∧
    (send 0 = false → send 1 = false → send 2 = false →
      (sendCanMessageWithRetry send 3).2 =
        [(some 0, LogLevel.warning), (some 2, LogLevel.error), (none, LogLevel.critical)]) := by
  constructor
  · cases h0 : send 0 <;> cases h1 : send 1 <;> cases h2 : send 2 <;>
      simp [sendCanMessageWithRetry, sendRetryGo, h0, h1, h2]
  · intro h0 h1 h2
    simp [sendCanMessageWithRetry, sendRetryGo, sendFailureLogs, h0, h1, h2]

theorem sendWithRetry_bounded_and_logs_witness :
    (sendCanMessageWithRetry (fun _ => false) 3).1 ≤ 3 ∧
    (sendCanMessageWithRetry (fun _ => false) 3).2 =
      [(some 0, LogLevel.warning), (some 2, LogLevel.error), (none, LogLevel.critical)] :=
  ⟨(sendWithRetry_bounded_and_logs (fun _ => false)).1,
   (sendWithRetry_bounded_and_logs (fun _ => false)).2 rfl rfl rfl⟩

/- ===== Listener worker loop (_can_message_handler, can_manager.py) ===== -/

/-- Outcome of one iteration's `can_module.handle_can_message` call, seen
from the listener loop. `handle_can_message` wraps `bus.recv` and the
subsequent dispatch in its own `try/except can.CanError` and does not
re-raise, so a transport error (`canError`) is logged there at error level
and the call returns normally; only a different exception (`otherError`,
e.g. a dead bus handle or a raising handler) propagates into the listener
loop's `except` clause. `ok` is a normal return (frame handled or receive
timeout). -/
inductive ListenerOutcome where
  | ok
  | canError
  | otherError
deriving Repr, DecidableEq

/-- Embedding of the `while not stop_event.is_set()` loop of
`CANManager._can_message_handler`. Each list element is the outcome of one
iteration's `handle_can_message` call; the list ends when the stop event is
set externally. A `canError` outcome is caught inside `handle_can_message`
(one error log entry from the module), so the loop's `try` completes and
`retry_count` is reset to 0; an `otherError` outcome reaches the loop's
`except` (one error log entry from the manager), increments `retry_count`,
and at the local `max_retries = 5` the loop logs critical and breaks.
Returns the final consecutive-failure counter, whether the loop terminated
itself, and the error/critical log entries emitted (module and manager
loggers merged, in temporal order). -/
def canMessageHandlerRun : List ListenerOutcome → Nat → Nat × Bool × List LogLevel
  | [], rc => (rc, false, [])
  | ListenerOutcome.ok :: rest, _ => canMessageHandlerRun rest 0
  | ListenerOutcome.canError :: rest, _ =>
    let r := canMessageHandlerRun rest 0
    (r.1, r.2.1, LogLevel.error :: r.2.2)
  | ListenerOutcome.otherError :: rest, rc =>
    if rc + 1 ≥ 5 then (rc + 1, true, [LogLevel.error, LogLevel.critical])
    else
      let r := canMessageHandlerRun rest (rc + 1)
      (r.1, r.2.1, LogLevel.error :: r.2.2)

/-- C5 counterexample: five consecutive transport errors
(`can.CanError` during `bus.recv`) are each logged but swallowed inside
`handle_can_message`, which returns normally, so the listener loop resets
its consecutive-failure counter on every one of them: after the five
failures the counter is 0, the loop has not terminated itself, and no
critical entry was logged — the claimed increment-and-self-stop policy
never engages for transport errors. -/
theorem listener_transport_error_not_counted :
    canMessageHandlerRun (List.replicate 5 ListenerOutcome.canError) 0 =
      (0, false, [LogLevel.error, LogLevel.error, LogLevel.error, LogLevel.error,
        LogLevel.error]) ∧
    (canMessageHandlerRun (List.replicate 5 ListenerOutcome.canError) 0).2.1 = false ∧
    ¬ (LogLevel.critical ∈
        (canMessageHandlerRun (List.replicate 5 ListenerOutcome.canError) 0).2.2) := by
  refine ⟨rfl, rfl, by decide⟩

/-- C5 amended: in the listener worker, a transport error (`can.CanError`)
during an iteration is logged at error level but caught inside
`handle_can_message`, so it resets the consecutive-failure counter exactly
as a successful iteration does and can never trigger the self-stop — five
consecutive transport errors leave the loop running with counter 0; only an
exception that escapes `handle_can_message` (a non-`CanError`) reaches the
loop's own handler, is logged and increments the counter, and after 5
consecutive such failures the loop terminates itself with a critical log
instead of retrying further, ignoring all remaining iterations. -/
theorem listener_failure_policy_by_error_kind (outcomes : List ListenerOutcome) (rc : Nat) :
    (canMessageHandlerRun (ListenerOutcome.ok :: outcomes) rc =
      canMessageHandlerRun outcomes 0) ∧
    (canMessageHandlerRun (ListenerOutcome.canError :: outcomes) rc =
      ((canMessageHandlerRun outcomes 0).1,
       (canMessageHandlerRun outcomes 0).2.1,
       LogLevel.error :: (canMessageHandlerRun outcomes 0).2.2)) ∧
    (rc + 1 < 5 →
      canMessageHandlerRun (ListenerOutcome.otherError :: outcomes) rc =
        ((canMessageHandlerRun outcomes (rc + 1)).1,
         (canMessageHandlerRun outcomes (rc + 1)).2.1,
         LogLevel.error :: (canMessageHandlerRun outcomes (rc + 1)).2.2)) ∧
    (rc + 1 ≥ 5 →
      canMessageHandlerRun (ListenerOutcome.otherError :: outcomes) rc =
        (rc + 1, true, [LogLevel.error, LogLevel.critical])) ∧
    (canMessageHandlerRun (List.replicate 5 ListenerOutcome.otherError ++ outcomes) 0 =
      (5, true, [LogLevel.error, LogLevel.error, LogLevel.error, LogLevel.error,
        LogLevel.error, LogLevel.critical])) ∧
    (canMessageHandlerRun (List.replicate 5 ListenerOutcome.canError ++ outcomes) 0 =
      ((canMessageHandlerRun outcomes 0).1,
       (canMessageHandlerRun outcomes 0).2.1,
       [LogLevel.error, LogLevel.error, LogLevel.error, LogLevel.error, LogLevel.error] ++
         (canMessageHandlerRun outcomes 0).2.2)) := by
  refine ⟨rfl, rfl, ?_, ?_, ?_, ?_⟩
  · intro h
    have hlt : ¬ (rc + 1 ≥ 5) := by omega
    simp [canMessageHandlerRun, hlt]
  · intro h
    simp [canMessageHandlerRun, h]
  · simp [canMessageHandlerRun, List.replicate_succ]
  · simp [canMessageHandlerRun, List.replicate_succ]

theorem listener_failure_policy_by_error_kind_witness :
    (canMessageHandlerRun [ListenerOutcome.otherError] 0 =
      (1, false, [LogLevel.error]) ∧
     canMessageHandlerRun [ListenerOutcome.otherError] 4 =
      (5, true, [LogLevel.error, LogLevel.critical])) :=
  ⟨by rw [(listener_failure_policy_by_error_kind [] 0).2.2.1 (by omega)]; rfl,
   (listener_failure_policy_by_error_kind [] 4).2.2.2.1 (by omega)⟩

/- ===== Responder worker (_send_periodic_responses, can_manager.py) ===== -/

/-- The values returned by the two externally supplied accessors
(`get_video_status` returning playback status, folder selection and video
number, and `get_correctness`) at one call site. -/
structure StatusSnapshot where
  playback_status : Nat
  folder_selection : Nat
  video_number : Nat
  correctness : Nat
deriving Repr, DecidableEq

/-- The status frame payload built by the responder:
`[0x03, folder_selection, video_number, correctness, 0, 0, 0, 0]`. -/
def statusPayload (snap : StatusSnapshot) : List Nat :=
  [3, snap.folder_selection, snap.video_number, snap.correctness, 0, 0, 0, 0]

/-- Mutable state of the responder loop across iterations. -/
structure ResponderState where
  nextSendTime : ℚ
  immediate : Bool
  retryCount : Nat
  stopped : Bool
deriving Repr, DecidableEq

/-- Result of one responder loop iteration: successor state, payloads of
the frames actually transmitted, number of transport send calls made, and
log entries emitted by the responder itself. -/
structure ResponderIterResult where
  state : ResponderState
  sentFrames : List (List Nat)
  sendAttempts : Nat
  logs : List LogLevel
deriving Repr, DecidableEq

/-- Embedding of the `except` clause of the responder loop body: the
consecutive-failure counter is incremented and an error is logged; when the
counter reaches the local `max_retries = 5` a critical entry is logged and
the loop breaks (self-stops). -/
def responderCatch (s : ResponderState) (sent : List (List Nat)) (attempts : Nat) :
    ResponderIterResult :=
  if s.retryCount + 1 ≥ 5 then
    ⟨{ s with retryCount := s.retryCount + 1, stopped := true }, sent, attempts,
      [LogLevel.error, LogLevel.critical]⟩
  else
    ⟨{ s with retryCount := s.retryCount + 1 }, sent, attempts, [LogLevel.error]⟩

/-- Embedding of one iteration of the `while not stop_event.is_set()` loop
of `CANManager._send_periodic_responses`. `t0` is the value of
`time.time()` captured into `current_time`; `tImm` and `tPer` are the
values of the later `time.time()` calls that reschedule `next_send_time`
after the immediate and the periodic send respectively. `snapImm` /
`snapPer` are the accessor values read at the two send sites, and
`sendOkImm` / `sendOkPer` tell whether the corresponding
`can_module.send_message` call succeeds (`false` models a raised exception
caught by the iteration's `except` clause, which skips the rest of the
body). Note the two `if` tests are sequential, not `elif`, exactly as in
the source. -/
def responderIteration (interval : ℚ) (s : ResponderState)
    (t0 tImm tPer : ℚ) (snapImm snapPer : StatusSnapshot)
    (sendOkImm sendOkPer : Bool) : ResponderIterResult :=
  if s.immediate then
    if sendOkImm then
      let s1 : ResponderState :=
        { s with immediate := false, retryCount := 0, nextSendTime := tImm + interval }
      if t0 ≥ s1.nextSendTime then
        if sendOkPer then
          ⟨{ s1 with retryCount := 0, nextSendTime := tPer + interval },
            [statusPayload snapImm, statusPayload snapPer], 2, []⟩
        else responderCatch s1 [statusPayload snapImm] 2
      else ⟨s1, [statusPayload snapImm], 1, []⟩
    else responderCatch { s with immediate := false } [] 1
  else
    if t0 ≥ s.nextSendTime then
      if sendOkPer then
        ⟨{ s with retryCount := 0, nextSendTime := tPer + interval },
          [statusPayload snapPer], 1, []⟩
      else responderCatch s [] 1
    else ⟨s, [], 0, []⟩

/-- C4: in a responder iteration whose sends succeed, (a) when the
immediate-response latch is set at the top of the iteration it is cleared,
exactly one status frame — built from the accessor values read at that
moment — is sent, and `next_send_time` is reset to the current time plus
the periodic interval, so with a positive interval the periodic branch of
the same iteration cannot also fire and the next periodic frame follows one
full interval after the immediate send rather than the original schedule;
(b) when the latch is not set, a frame is sent exactly when the current
time has reached `next_send_time`, after which `next_send_time` is advanced
from the post-send current time, and otherwise nothing is sent and the
state is unchanged. -/
theorem responder_immediate_latch_behavior (interval : ℚ) (s : ResponderState)
    (t0 tImm tPer : ℚ) (snapImm snapPer : StatusSnapshot) (sendOkPer : Bool) :
    (s.immediate = true → 0 < interval → t0 ≤ tImm →
      responderIteration interval s t0 tImm tPer snapImm snapPer true sendOkPer =
        ⟨{ s with immediate := false, retryCount := 0, nextSendTime := tImm + interval },
          [statusPayload snapImm], 1, []⟩) ∧
    (s.immediate = false →
      responderIteration interval s t0 tImm tPer snapImm snapPer true true =
        (if t0 ≥ s.nextSendTime then
          ⟨{ s with retryCount := 0, nextSendTime := tPer + interval },
            [statusPayload snapPer], 1, []⟩
        else ⟨s, [], 0, []⟩)) := by
  constructor
  · intro hs hint ht
    have hnot : ¬ (t0 ≥ tImm + interval) := by
      intro hge
      linarith
    simp [responderIteration, hs, hnot]
  · intro hs
    by_cases ht : t0 ≥ s.nextSendTime
    · simp [responderIteration, hs, ht]
    · simp [responderIteration, hs, ht]

theorem responder_immediate_latch_behavior_witness :
    (responderIteration 2 ⟨2, true, 0, false⟩ (1/2) (1/2) (1/2) ⟨1, 1, 4, 3⟩ ⟨1, 1, 4, 3⟩
        true true =
      ⟨⟨5/2, false, 0, false⟩, [[3, 1, 4, 3, 0, 0, 0, 0]], 1, []⟩) ∧
    (responderIteration 2 ⟨2, false, 0, false⟩ 2 2 2 ⟨1, 1, 4, 3⟩ ⟨1, 2, 5, 7⟩
        true true =
      ⟨⟨4, false, 0, false⟩, [[3, 2, 5, 7, 0, 0, 0, 0]], 1, []⟩) := by
  constructor
  · rw [(responder_immediate_latch_behavior 2 ⟨2, true, 0, false⟩ (1/2) (1/2) (1/2)
      ⟨1, 1, 4, 3⟩ ⟨1, 1, 4, 3⟩ true).1 rfl (by norm_num) (by norm_num)]
    norm_num [statusPayload]
  · rw [(responder_immediate_latch_behavior 2 ⟨2, false, 0, false⟩ 2 2 2
      ⟨1, 1, 4, 3⟩ ⟨1, 2, 5, 7⟩ true).2 rfl]
    norm_num [statusPayload]

/-- C6 counterexample: the responder loop calls `can_module.send_message`
directly; `_send_can_message_with_retry` is never invoked from it. With a
persistently failing transport, an iteration with the immediate latch set
makes exactly one send attempt before falling into the consecutive-failure
handling, whereas the bounded-retry policy the claim references makes three
attempts on persistent failure: one is not three. -/
theorem responder_send_failure_not_retried :
    (responderIteration 2 ⟨100, true, 0, false⟩ 0 0 0 ⟨0, 0, 0, 0⟩ ⟨0, 0, 0, 0⟩
      false false).sendAttempts = 1 ∧
    (sendCanMessageWithRetry (fun _ => false) 3).1 = 3 ∧
    (1 : Nat) ≠ 3 :=
  ⟨rfl, rfl, by decide⟩

/-- C6 amended: a status-frame send failure in the responder loop is not
retried with the bounded-retry helper (which the loop never calls); the
failing iteration makes exactly one send attempt and is handled by the
responder's consecutive-failure policy, which mirrors the listener's: the
counter is incremented and an error logged, the loop continues below the
cap of 5 consecutive failures, and at the cap one critical entry is logged
and the loop stops itself. -/
theorem responder_failure_mirrors_listener (interval : ℚ) (s : ResponderState)
    (t0 tImm tPer : ℚ) (snapImm snapPer : StatusSnapshot) (sendOkPer : Bool) :
    (s.immediate = true →
      responderIteration interval s t0 tImm tPer snapImm snapPer false sendOkPer =
        responderCatch { s with immediate := false } [] 1) ∧
    (s.immediate = false → t0 ≥ s.nextSendTime →
      responderIteration interval s t0 tImm tPer snapImm snapPer true false =
        responderCatch s [] 1) ∧
    (∀ s2 sent att, s2.retryCount + 1 < 5 →
      responderCatch s2 sent att =
        ⟨{ s2 with retryCount := s2.retryCount + 1 }, sent, att, [LogLevel.error]⟩) ∧
    (∀ s2 sent att, s2.retryCount + 1 ≥ 5 →
      responderCatch s2 sent att =
        ⟨{ s2 with retryCount := s2.retryCount + 1, stopped := true }, sent, att,
          [LogLevel.error, LogLevel.critical]⟩) := by
  refine ⟨?_, ?_, ?_, ?_⟩
  · intro hs
    simp [responderIteration, hs]
  · intro hs ht
    simp [responderIteration, hs, ht]
  · intro s2 sent att h
    have hn : ¬ (s2.retryCount + 1 ≥ 5) := by omega
    simp [responderCatch, hn]
  · intro s2 sent att h
    simp [responderCatch, h]

theorem responder_failure_mirrors_listener_witness :
    (responderIteration 2 ⟨100, true, 0, false⟩ 0 0 0 ⟨0, 0, 0, 0⟩ ⟨0, 0, 0, 0⟩
        false false =
      ⟨⟨100, false, 1, false⟩, [], 1, [LogLevel.error]⟩) ∧
    (responderIteration 2 ⟨0, false, 4, false⟩ 0 0 0 ⟨0, 0, 0, 0⟩ ⟨0, 0, 0, 0⟩
        true false =
      ⟨⟨0, false, 5, true⟩, [], 1, [LogLevel.error, LogLevel.critical]⟩) := by
  constructor
  · rw [(responder_failure_mirrors_listener 2 ⟨100, true, 0, false⟩ 0 0 0
      ⟨0, 0, 0, 0⟩ ⟨0, 0, 0, 0⟩ false).1 rfl]
    rfl
  · rw [(responder_failure_mirrors_listener 2 ⟨0, false, 4, false⟩ 0 0 0
      ⟨0, 0, 0, 0⟩ ⟨0, 0, 0, 0⟩ false).2.1 rfl (le_refl 0)]
    rfl

/- ===== Lifecycle orchestrator (application.py) ===== -/

/-- The three teardown entry points passed to
`Application._perform_cleanup_and_action`. -/
inductive CleanupAction where
  | restartUi
  | shutdownUi
  | systemShutdown
deriving Repr, DecidableEq

/-- Embedding of the Python membership test
`cleanup_action in (self._shutdown_ui_cleanup, self._system_shutdown_cleanup)`. -/
def isShutdownAction : CleanupAction → Bool
  | CleanupAction.restartUi => false
  | CleanupAction.shutdownUi => true
  | CleanupAction.systemShutdown => true

/-- Lifecycle state of the application: the two in-progress booleans of
`Application.__init__` (both mutated only under `self.lock`) plus a count
of teardown threads started, so that the no-op quality of a rejected
request is observable. -/
structure AppLifecycleState where
  restart_in_progress : Bool
  shutdown_in_progress : Bool
  teardownThreadsStarted : Nat
deriving Repr, DecidableEq

/-- The state set up by `Application.__init__`. -/
def appInitState : AppLifecycleState := ⟨false, false, 0⟩

/-- Embedding of `Application._perform_cleanup_and_action`: under the lock,
a request arriving while either flag is set is rejected (the state is
returned unchanged and no thread is started); otherwise the flag matching
the requested action is set and one teardown thread is spawned. -/
def performCleanupAndAction (s : AppLifecycleState) (a : CleanupAction) :
    AppLifecycleState :=
  if s.restart_in_progress || s.shutdown_in_progress then s
  else
    { restart_in_progress := a == CleanupAction.restartUi,
      shutdown_in_progress := isShutdownAction a,
      teardownThreadsStarted := s.teardownThreadsStarted + 1 }

/-- The teardown steps run inside the `try` block of
`Application._cleanup_and_execute_action`, in source order. -/
inductive TeardownStep where
  | stopCommandProcessing
  | stopListener
  | stopResponder
  | canShutdown
  | timerStop
  | scheduleTerminalAction
deriving Repr, DecidableEq

/-- All six teardown steps in order. -/
def teardownSteps : List TeardownStep :=
  [TeardownStep.stopCommandProcessing, TeardownStep.stopListener,
   TeardownStep.stopResponder, TeardownStep.canShutdown,
   TeardownStep.timerStop, TeardownStep.scheduleTerminalAction]

/-- Embedding of `Application._cleanup_and_execute_action`: the teardown
steps run until one raises (`failAt = some k` models an exception at the
k-th step, caught by the `except` clause and logged); the `finally` block
then clears the flag corresponding to the action unconditionally. Returns
the resulting state and the steps that actually ran. -/
def cleanupAndExecuteAction (s : AppLifecycleState) (a : CleanupAction)
    (failAt : Option Nat) : AppLifecycleState × List TeardownStep :=
  let performed :=
    match failAt with
    | none => teardownSteps
    | some k => teardownSteps.take k
  if isShutdownAction a then ({ s with shutdown_in_progress := false }, performed)
  else ({ s with restart_in_progress := false }, performed)

/-- Events acting on the lifecycle state: a restart/shutdown request
(`_perform_cleanup_and_action`) or the completion of a teardown thread
(`_cleanup_and_execute_action`, possibly failing at some step). -/
inductive LifecycleEvent where
  | request (a : CleanupAction)
  | finish (a : CleanupAction) (failAt : Option Nat)
deriving Repr

/-- One lifecycle transition. -/
def lifecycleStep (s : AppLifecycleState) : LifecycleEvent → AppLifecycleState
  | LifecycleEvent.request a => performCleanupAndAction s a
  | LifecycleEvent.finish a failAt => (cleanupAndExecuteAction s a failAt).1

/-- The lifecycle state after a sequence of events from the initial state. -/
def runLifecycle (events : List LifecycleEvent) : AppLifecycleState :=
  events.foldl lifecycleStep appInitState

theorem lifecycleStep_preserves_exclusion (s : AppLifecycleState) (e : LifecycleEvent)
    (h : s.restart_in_progress = false ∨ s.shutdown_in_progress = false) :
    (lifecycleStep s e).restart_in_progress = false ∨
      (lifecycleStep s e).shutdown_in_progress = false := by
  cases e with
  | request a =>
    by_cases hb : (s.restart_in_progress || s.shutdown_in_progress) = true
    · simpa [lifecycleStep, performCleanupAndAction, hb] using h
    · cases a <;> simp [lifecycleStep, performCleanupAndAction, hb, isShutdownAction]
  | finish a failAt =>
    cases a <;> simp [lifecycleStep, cleanupAndExecuteAction, isShutdownAction]

theorem runLifecycle_exclusion_aux (events : List LifecycleEvent) :
    ∀ s, (s.restart_in_progress = false ∨ s.shutdown_in_progress = false) →
      ((events.foldl lifecycleStep s).restart_in_progress = false ∨
       (events.foldl lifecycleStep s).shutdown_in_progress = false) := by
  induction events with
  | nil => intro s h; exact h
  | cons e rest ih =>
    intro s h
    exact ih (lifecycleStep s e) (lifecycleStep_preserves_exclusion s e h)

/-- C3: for every sequence of restart or shutdown requests and teardown
completions from the initial state, at most one of the restart-in-progress
and shutdown-in-progress flags is ever set; and a request arriving while
either flag is set is rejected as a no-op: the state (including the count
of teardown threads started) is returned unchanged, so no second teardown
thread starts. -/
theorem lifecycle_guard_mutual_exclusion (events : List LifecycleEvent) :
    (¬ ((runLifecycle events).restart_in_progress = true ∧
        (runLifecycle events).shutdown_in_progress = true)) ∧
    (∀ s a, (s.restart_in_progress || s.shutdown_in_progress) = true →
      performCleanupAndAction s a = s) := by
  constructor
  · have h := runLifecycle_exclusion_aux events appInitState (Or.inl rfl)
    rcases h with h | h <;> simp [runLifecycle] at h ⊢ <;> simp [h]
  · intro s a hb
    simp [performCleanupAndAction, hb]

theorem lifecycle_guard_mutual_exclusion_witness :
    (¬ ((runLifecycle [LifecycleEvent.request CleanupAction.restartUi]).restart_in_progress = true ∧
        (runLifecycle [LifecycleEvent.request CleanupAction.restartUi]).shutdown_in_progress = true)) ∧
    performCleanupAndAction ⟨true, false, 1⟩ CleanupAction.shutdownUi = ⟨true, false, 1⟩ :=
  ⟨(lifecycle_guard_mutual_exclusion [LifecycleEvent.request CleanupAction.restartUi]).1,
   (lifecycle_guard_mutual_exclusion []).2 ⟨true, false, 1⟩ CleanupAction.shutdownUi (by decide)⟩

/-- C7: starting from an idle state, after a granted restart or shutdown
request runs its teardown — whether the teardown steps all succeed
(`failAt = none`) or raise at any step (`failAt = some k`, caught, with the
`finally` block still executed) — both in-progress flags are back to
`false`, and a subsequent request of any kind is accepted: it starts a new
teardown thread instead of being rejected. -/
theorem teardown_finally_resets_state (s : AppLifecycleState) (a : CleanupAction)
    (failAt : Option Nat)
    (h1 : s.restart_in_progress = false) (h2 : s.shutdown_in_progress = false) :
    ((cleanupAndExecuteAction (performCleanupAndAction s a) a failAt).1.restart_in_progress = false ∧
     (cleanupAndExecuteAction (performCleanupAndAction s a) a failAt).1.shutdown_in_progress = false) ∧
    (∀ a2, (performCleanupAndAction
        (cleanupAndExecuteAction (performCleanupAndAction s a) a failAt).1 a2).teardownThreadsStarted =
      (cleanupAndExecuteAction (performCleanupAndAction s a) a failAt).1.teardownThreadsStarted + 1) := by
  have hids : (s.restart_in_progress || s.shutdown_in_progress) = false := by
    simp [h1, h2]
  constructor
  · cases a <;>
      simp [cleanupAndExecuteAction, performCleanupAndAction, hids, isShutdownAction]
  · intro a2
    cases a <;>
      simp [cleanupAndExecuteAction, performCleanupAndAction, hids, isShutdownAction]

theorem teardown_finally_resets_state_witness :
    ((cleanupAndExecuteAction (performCleanupAndAction appInitState CleanupAction.restartUi)
        CleanupAction.restartUi (some 2)).1.restart_in_progress = false ∧
     (cleanupAndExecuteAction (performCleanupAndAction appInitState CleanupAction.restartUi)
        CleanupAction.restartUi (some 2)).1.shutdown_in_progress = false) ∧
    (∀ a2, (performCleanupAndAction
        (cleanupAndExecuteAction (performCleanupAndAction appInitState CleanupAction.restartUi)
          CleanupAction.restartUi (some 2)).1 a2).teardownThreadsStarted =
      (cleanupAndExecuteAction (performCleanupAndAction appInitState CleanupAction.restartUi)
        CleanupAction.restartUi (some 2)).1.teardownThreadsStarted + 1) :=
  teardown_finally_resets_state appInitState CleanupAction.restartUi (some 2) rfl rfl

/- ===== Worker stop paths (stop_can_listener / stop_can_responder) ===== -/

/-- Observable actions performed by `stop_can_listener` /
`stop_can_responder` while holding the manager lock, in order. -/
inductive StopAction where
  | setStopEvent
  | joinThread (timeout : ℚ)
  | warnSelfJoinSkipped
  | logStopped
  | resetThreadRef
deriving Repr, DecidableEq

/-- Whether an action is a thread join. -/
def isJoinAction : StopAction → Bool
  | StopAction.joinThread _ => true
  | _ => false

/-- Embedding of `CANManager.stop_can_listener`: when the listener thread
exists and is alive, the stop event is set; then, unless the caller runs on
the worker thread itself, the thread is joined with a 2 second timeout —
a call from within the worker thread skips the join and logs a warning
instead; finally the stop is logged and the thread reference cleared. -/
def stopCanListener (threadAlive : Bool) (callerIsWorkerThread : Bool) : List StopAction :=
  if threadAlive then
    StopAction.setStopEvent ::
      ((if callerIsWorkerThread then [StopAction.warnSelfJoinSkipped]
        else [StopAction.joinThread 2]) ++
        [StopAction.logStopped, StopAction.resetThreadRef])
  else []

/-- Embedding of `CANManager.stop_can_responder`, structurally identical to
`stop_can_listener` but acting on the responder thread. -/
def stopCanResponder (threadAlive : Bool) (callerIsWorkerThread : Bool) : List StopAction :=
  if threadAlive then
    StopAction.setStopEvent ::
      ((if callerIsWorkerThread then [StopAction.warnSelfJoinSkipped]
        else [StopAction.joinThread 2]) ++
        [StopAction.logStopped, StopAction.resetThreadRef])
  else []

/-- C8: for both the listener and the responder, a `stop()` issued from
within the worker's own thread sets the stop flag, performs no join at all
(so it cannot self-join-deadlock) and logs a warning before returning,
while a `stop()` from any other thread sets the stop flag and joins the
worker thread with a 2 second timeout. -/
theorem stop_self_join_skipped :
    (stopCanListener true true =
      [StopAction.setStopEvent, StopAction.warnSelfJoinSkipped, StopAction.logStopped,
        StopAction.resetThreadRef] ∧
     (stopCanListener true true).all (fun x => ! isJoinAction x) = true) ∧
    (stopCanListener true false =
      [StopAction.setStopEvent, StopAction.joinThread 2, StopAction.logStopped,
        StopAction.resetThreadRef]) ∧
    (stopCanResponder true true =
      [StopAction.setStopEvent, StopAction.warnSelfJoinSkipped, StopAction.logStopped,
        StopAction.resetThreadRef] ∧
     (stopCanResponder true true).all (fun x => ! isJoinAction x) = true) ∧
    (stopCanResponder true false =
      [StopAction.setStopEvent, StopAction.joinThread 2, StopAction.logStopped,
        StopAction.resetThreadRef]) := by
  refine ⟨⟨rfl, rfl⟩, rfl, ⟨rfl, rfl⟩, rfl⟩

/- ===== Command queue / marshaller (command_processor.py) ===== -/

/-- State of the `CommandProcessor`: commands (identified by numbers) still
in `command_queue`, commands handed to `root.after` but not yet executed by
the presentation thread, commands already executed, the `processing` flag,
and the full enqueue history (a ghost field recording every `enqueue_command`
in order). In the source, `task_done` is called by the worker right after
`root.after` schedules the command, so the queue's unfinished count equals
the length of `queued` here. -/
structure CommandProcessorState where
  queued : List Nat
  scheduled : List Nat
  executed : List Nat
  processing : Bool
  history : List Nat
deriving Repr, DecidableEq

/-- The state right after `process_queue` started the worker. -/
def commandProcessorInit : CommandProcessorState := ⟨[], [], [], true, []⟩

/-- Interleaved events on the command processor: `enqueue_command` (from any
thread), one worker-loop iteration that dequeues the oldest command, hands
it to `root.after` and calls `task_done`, and the presentation thread
executing the oldest scheduled command. -/
inductive CommandEvent where
  | enqueue (c : Nat)
  | workerStep
  | mainExecute
deriving Repr, DecidableEq

/-- One atomic transition of the command processor. -/
def commandStep (s : CommandProcessorState) : CommandEvent → CommandProcessorState
  | CommandEvent.enqueue c =>
    { s with queued := s.queued ++ [c], history := s.history ++ [c] }
  | CommandEvent.workerStep =>
    if s.processing then
      match s.queued with
      | [] => s
      | c :: rest => { s with queued := rest, scheduled := s.scheduled ++ [c] }
    else s
  | CommandEvent.mainExecute =>
    match s.scheduled with
    | [] => s
    | c :: rest => { s with scheduled := rest, executed := s.executed ++ [c] }

/-- The command processor state after a sequence of events. -/
def runCommandProcessor (events : List CommandEvent) : CommandProcessorState :=
  events.foldl commandStep commandProcessorInit

/-- Embedding of `CommandProcessor.stop_processing`: under the lock, when
`processing` is set it is cleared and `command_queue.join()` awaits an
unfinished count of zero. The worker loop has already been told to stop, so
when items remain in the queue no `task_done` can arrive any more and the
join never returns, modelled as `none`; with an empty queue the join
returns at once. When `processing` is already clear the call returns
immediately without joining. -/
def stopProcessing (s : CommandProcessorState) : Option CommandProcessorState :=
  if s.processing then
    if s.queued.isEmpty then some { s with processing := false }
    else none
  else some s

theorem commandStep_history (s : CommandProcessorState) (e : CommandEvent)
    (h : s.history = s.executed ++ s.scheduled ++ s.queued) :
    (commandStep s e).history =
      (commandStep s e).executed ++ (commandStep s e).scheduled ++ (commandStep s e).queued := by
  cases e with
  | enqueue c => simp [commandStep, h]
  | workerStep =>
    by_cases hp : s.processing
    · cases hq : s.queued with
      | nil => simpa [commandStep, hp, hq] using h
      | cons c rest =>
        rw [hq] at h
        simp [commandStep, hp, hq, h]
    · simpa [commandStep, hp] using h
  | mainExecute =>
    cases hs : s.scheduled with
    | nil => simpa [commandStep, hs] using h
    | cons c rest =>
      rw [hs] at h
      simp [commandStep, hs, h]

theorem runCommandProcessor_history_aux (events : List CommandEvent) :
    ∀ s, s.history = s.executed ++ s.scheduled ++ s.queued →
      (events.foldl commandStep s).history =
        (events.foldl commandStep s).executed ++ (events.foldl commandStep s).scheduled ++
          (events.foldl commandStep s).queued := by
  induction events with
  | nil => intro s h; exact h
  | cons e rest ih => intro s h; exact ih (commandStep s e) (commandStep_history s e h)

theorem runCommandProcessor_history (events : List CommandEvent) :
    (runCommandProcessor events).history =
      (runCommandProcessor events).executed ++ (runCommandProcessor events).scheduled ++
        (runCommandProcessor events).queued :=
  runCommandProcessor_history_aux events commandProcessorInit rfl

/-- C9 counterexample: command 1 is enqueued, the worker dequeues it, hands
it to `root.after` and calls `task_done`; `stop_processing` then finds the
unfinished count at zero and returns — but command 1, enqueued before the
call, has not completed execution: it still sits in the presentation
thread's callback queue (`scheduled = [1]`, `executed = []`). -/
theorem stop_processing_returns_before_execution :
    stopProcessing (runCommandProcessor [CommandEvent.enqueue 1, CommandEvent.workerStep]) =
      some ⟨[], [1], [], false, [1]⟩ ∧
    (runCommandProcessor [CommandEvent.enqueue 1, CommandEvent.workerStep]).executed = [] :=
  ⟨rfl, rfl⟩

/-- C9 amended: when processing is active and `stop_processing` returns
(the `queue.join()` completes), every command enqueued at the time of the
call has been dequeued from the command queue and handed to the
presentation thread's scheduler, in enqueue order — but not necessarily
executed: execution of already-scheduled commands may still happen after
`stop()` returns. -/
theorem stop_processing_drains_queue (events : List CommandEvent)
    (s2 : CommandProcessorState)
    (h1 : (runCommandProcessor events).processing = true)
    (h2 : stopProcessing (runCommandProcessor events) = some s2) :
    s2.queued = [] ∧ s2.history = s2.executed ++ s2.scheduled := by
  have hhist := runCommandProcessor_history events
  simp only [stopProcessing, h1, if_true] at h2
  by_cases hq : (runCommandProcessor events).queued.isEmpty = true
  · simp only [hq, if_true, Option.some.injEq] at h2
    have hqnil : (runCommandProcessor events).queued = [] := by
      simpa using hq
    rw [← h2]
    constructor
    · simpa using hqnil
    · simpa [hqnil] using hhist
  · simp [hq] at h2

theorem stop_processing_drains_queue_witness :
    ((runCommandProcessor [CommandEvent.enqueue 1, CommandEvent.workerStep]).processing = true) ∧
    ((⟨[], [1], [], false, [1]⟩ : CommandProcessorState).queued = [] ∧
     (⟨[], [1], [], false, [1]⟩ : CommandProcessorState).history =
       (⟨[], [1], [], false, [1]⟩ : CommandProcessorState).executed ++
         (⟨[], [1], [], false, [1]⟩ : CommandProcessorState).scheduled) :=
  ⟨rfl, stop_processing_drains_queue [CommandEvent.enqueue 1, CommandEvent.workerStep]
      ⟨[], [1], [], false, [1]⟩ rfl rfl⟩
